import Mathlib

/-!
Shallow embedding of `scripts/upgrade.py` from the `hub23-deploy` repository.

The script drives a fixed sequence of external commands (Azure login,
subscription selection, cluster credential fetch, helm client init, chart
dependency update, helm upgrade, pod listing).  Each external call is made
through `run_cmd`, which returns a record with the exit code, the captured
standard output and the captured error text.  We model the external world as
an executor function `exec : List String → CmdResult`, and each method of the
`Upgrade` class as a state-passing function that records every issued command,
tracks the working-directory stack (mutated by `os.chdir`), and propagates the
first failure as the raised error message.
-/

namespace Hub23

/-- Result record returned by `run_cmd`: exit code, captured stdout,
captured error text. -/
structure CmdResult where
  returncode : Int
  output : String
  err_msg : String
  deriving Repr, DecidableEq

/-- The configuration record built by `Upgrade.__init__` from the parsed
command-line arguments. -/
structure Config where
  hub_name : String
  chart_name : String
  cluster_name : String
  resource_group : String
  subscription : String
  identity : Bool
  dry_run : Bool
  debug : Bool
  deriving Repr, DecidableEq

/-- Process state threaded through the methods: the configuration held by the
`Upgrade` object, the working-directory stack (`os.chdir` pushes a directory,
`os.chdir(os.pardir)` pops one), and the list of external commands issued so
far, in order. -/
structure RunState where
  config : Config
  cwd : List String
  executed : List (List String)
  deriving Repr, DecidableEq

/-- The executor abstracts `run_cmd`: it maps a command (an argument list) to
the result of running it. -/
def Exec := List String → CmdResult

/-- The login command `["az", "login"]`, with `--identity` appended when the
managed-identity flag is set (upgrade.py lines 145-148). -/
def login_cmd (c : Config) : List String :=
  ["az", "login"] ++ (if c.identity then ["--identity"] else [])

/-- The subscription command `["az", "account", "set", "-s"]` followed by the subscription,
wrapped in double quotes when it contains a space (upgrade.py lines 162-169). -/
def sub_cmd (c : Config) : List String :=
  ["az", "account", "set", "-s"] ++
    (if c.subscription.contains ' ' then ["\"" ++ c.subscription ++ "\""]
     else [c.subscription])

/-- The `az aks get-credentials` command (upgrade.py lines 182-190). -/
def get_credentials_cmd (c : Config) : List String :=
  ["az", "aks", "get-credentials", "-n", c.cluster_name, "-g", c.resource_group]

/-- The client-only helm initialisation command (upgrade.py line 200). -/
def helm_init_cmd : List String :=
  ["helm", "init", "--client-only"]

/-- The chart dependency update command (upgrade.py line 213). -/
def dependency_update_cmd : List String :=
  ["helm", "dependency", "update"]

/-- The fixed part of the helm upgrade command: release name, chart name, the
two value-file overlays and `--wait` (upgrade.py lines 105-115).
`os.path.join` is rendered with the POSIX separator. -/
def helm_upgrade_base (c : Config) : List String :=
  ["helm", "upgrade", c.hub_name, c.chart_name,
   "-f", "deploy/prod.yaml", "-f", ".secret/prod.yaml", "--wait"]

/-- The assembled helm upgrade command, with `--dry-run` and/or `--debug`
appended according to the four-way case split of upgrade.py lines 117-132. -/
def helm_upgrade_cmd (c : Config) : List String :=
  helm_upgrade_base c ++
    (if c.dry_run && c.debug then ["--dry-run", "--debug"]
     else if c.dry_run && !c.debug then ["--dry-run"]
     else if !c.dry_run && c.debug then ["--debug"]
     else [])

/-- The pod listing command, scoped to the hub's namespace
(upgrade.py line 226). -/
def print_pods_cmd (c : Config) : List String :=
  ["kubectl", "get", "pods", "-n", c.hub_name]

/-- One `run_cmd` call followed by the exit-code check every call site
performs: record the issued command; on exit code 0 continue, otherwise raise
an exception carrying the captured error text. -/
def runStep (exec : Exec) (cmd : List String) (s : RunState) :
    RunState × Option String :=
  let r := exec cmd
  let s' := { s with executed := s.executed ++ [cmd] }
  if r.returncode = 0 then (s', none) else (s', some r.err_msg)

/-- Sequencing with exception propagation: a raised error short-circuits the
rest of the run, keeping the state at the point of failure. -/
def seq (p : RunState × Option String)
    (f : RunState → RunState × Option String) : RunState × Option String :=
  match p with
  | (s, none) => f s
  | (s, some e) => (s, some e)

/-- Method `Upgrade.login` (upgrade.py lines 143-206): az login, subscription set,
credential fetch, helm client init, each checked in turn. -/
def login (exec : Exec) (s : RunState) : RunState × Option String :=
  seq (runStep exec (login_cmd s.config) s) fun s1 =>
  seq (runStep exec (sub_cmd s1.config) s1) fun s2 =>
  seq (runStep exec (get_credentials_cmd s2.config) s2) fun s3 =>
  runStep exec helm_init_cmd s3

/-- Method `Upgrade.update_local_chart` (upgrade.py lines 208-221): change into the
chart directory, run the dependency update, and change back to the parent
directory — the latter only on the success path, since a failure raises
before reaching `os.chdir(os.pardir)`. -/
def update_local_chart (exec : Exec) (s : RunState) : RunState × Option String :=
  let sIn := { s with cwd := s.cwd ++ [s.config.chart_name] }
  seq (runStep exec dependency_update_cmd sIn) fun s1 =>
  ({ s1 with cwd := s1.cwd.dropLast }, none)

/-- Method `Upgrade.print_pods` (upgrade.py lines 223-232). -/
def print_pods (exec : Exec) (s : RunState) : RunState × Option String :=
  runStep exec (print_pods_cmd s.config) s

/-- Method `Upgrade.upgrade` (upgrade.py lines 95-141): login, update the local
chart, run the assembled helm upgrade command, then list the pods. -/
def upgrade (exec : Exec) (s : RunState) : RunState × Option String :=
  seq (login exec s) fun s1 =>
  seq (update_local_chart exec s1) fun s2 =>
  seq (runStep exec (helm_upgrade_cmd s2.config) s2) fun s3 =>
  print_pods exec s3

/-- Fresh process state for a configuration: no commands issued yet, working
directory at the repository root. -/
def initState (c : Config) : RunState :=
  { config := c, cwd := [], executed := [] }

/-- The seven external commands of a run, in program order. -/
def runCommands (c : Config) : List (List String) :=
  [login_cmd c, sub_cmd c, get_credentials_cmd c, helm_init_cmd,
   dependency_update_cmd, helm_upgrade_cmd c, print_pods_cmd c]

/-- An executor for which every command succeeds. -/
def okExec : Exec := fun _ => { returncode := 0, output := "", err_msg := "" }

/-- The default configuration from `parse_args` (upgrade.py lines 21-78). -/
def defaultConfig : Config :=
  { hub_name := "hub23", chart_name := "hub23-chart",
    cluster_name := "hub23cluster", resource_group := "Hub23",
    subscription := "Turing-BinderHub", identity := false,
    dry_run := false, debug := false }

/-- An executor that fails exactly on the dependency-update command. -/
def failDepExec : Exec := fun cmd =>
  if cmd = dependency_update_cmd then { returncode := 1, output := "", err_msg := "dep update failed" }
  else { returncode := 0, output := "", err_msg := "" }

lemma runStep_fst (exec : Exec) (cmd : List String) (s : RunState) :
    (runStep exec cmd s).1 = { s with executed := s.executed ++ [cmd] } := by
  simp only [runStep]
  split <;> rfl

lemma runStep_config (exec : Exec) (cmd : List String) (s : RunState) :
    (runStep exec cmd s).1.config = s.config := by
  rw [runStep_fst]

lemma seq_config (p : RunState × Option String) (f : RunState → RunState × Option String)
    (hf : ∀ s, (f s).1.config = s.config) : (seq p f).1.config = p.1.config := by
  obtain ⟨s, o⟩ := p
  cases o <;> simp [seq, hf]

lemma login_config (exec : Exec) (s : RunState) :
    (login exec s).1.config = s.config := by
  unfold login
  rw [seq_config, runStep_config]
  intro s1
  rw [seq_config, runStep_config]
  intro s2
  rw [seq_config, runStep_config]
  intro s3
  exact runStep_config ..

lemma update_local_chart_config (exec : Exec) (s : RunState) :
    (update_local_chart exec s).1.config = s.config := by
  unfold update_local_chart
  rw [seq_config]
  · rw [runStep_config]
  · intro s1
    rfl

lemma print_pods_config (exec : Exec) (s : RunState) :
    (print_pods exec s).1.config = s.config :=
  runStep_config ..

end Hub23

namespace Hub23

/-- C2: for every configuration whose release and chart names are not
themselves the flag strings, the assembled helm upgrade command contains the
`--dry-run` flag exactly when `dry_run` is set and the `--debug` flag exactly
when `debug` is set — each exactly once when present, absent otherwise —
covering all four boolean combinations exhaustively and exclusively. -/
theorem upgrade_flags_exact (c : Config)
    (h1 : c.hub_name ≠ "--dry-run") (h2 : c.hub_name ≠ "--debug")
    (h3 : c.chart_name ≠ "--dry-run") (h4 : c.chart_name ≠ "--debug") :
    ((helm_upgrade_cmd c).count "--dry-run" = if c.dry_run then 1 else 0) ∧
    ((helm_upgrade_cmd c).count "--debug" = if c.debug then 1 else 0) ∧
    ("--dry-run" ∈ helm_upgrade_cmd c ↔ c.dry_run = true) ∧
    ("--debug" ∈ helm_upgrade_cmd c ↔ c.debug = true) := by
  have h1' := Ne.symm h1
  have h2' := Ne.symm h2
  have h3' := Ne.symm h3
  have h4' := Ne.symm h4
  cases hd : c.dry_run <;> cases hb : c.debug <;>
    simp [helm_upgrade_cmd, helm_upgrade_base, hd, hb,
      List.count_cons, List.count_append, beq_iff_eq,
      h1, h2, h3, h4, h1', h2', h3', h4']

/-- Witness for `upgrade_flags_exact` at the default configuration with
`dry_run` set. -/
theorem upgrade_flags_exact_witness :
    (((helm_upgrade_cmd { defaultConfig with dry_run := true }).count "--dry-run" =
        if ({ defaultConfig with dry_run := true } : Config).dry_run then 1 else 0) ∧
      ((helm_upgrade_cmd { defaultConfig with dry_run := true }).count "--debug" =
        if ({ defaultConfig with dry_run := true } : Config).debug then 1 else 0) ∧
      ("--dry-run" ∈ helm_upgrade_cmd { defaultConfig with dry_run := true } ↔
        ({ defaultConfig with dry_run := true } : Config).dry_run = true) ∧
      ("--debug" ∈ helm_upgrade_cmd { defaultConfig with dry_run := true } ↔
        ({ defaultConfig with dry_run := true } : Config).debug = true)) :=
  upgrade_flags_exact { defaultConfig with dry_run := true }
    (by decide) (by decide) (by decide) (by decide)

/-- C3: with hub name "hub23", chart name "hub23-chart", `dry_run = true` and
`debug = false` (and any values for the remaining fields), the upgrade step
executes exactly
`helm upgrade hub23 hub23-chart -f deploy/prod.yaml -f .secret/prod.yaml --wait --dry-run`:
it is the assembled command, and it is the sixth command issued in a
successful run. -/
theorem hub23_dry_run_command (cn rg sub : String) (idb : Bool) :
    helm_upgrade_cmd
        { hub_name := "hub23", chart_name := "hub23-chart", cluster_name := cn,
          resource_group := rg, subscription := sub, identity := idb,
          dry_run := true, debug := false } =
      ["helm", "upgrade", "hub23", "hub23-chart", "-f", "deploy/prod.yaml",
       "-f", ".secret/prod.yaml", "--wait", "--dry-run"] ∧
    (upgrade okExec (initState
        { hub_name := "hub23", chart_name := "hub23-chart", cluster_name := cn,
          resource_group := rg, subscription := sub, identity := idb,
          dry_run := true, debug := false })).1.executed.getD 5 [] =
      ["helm", "upgrade", "hub23", "hub23-chart", "-f", "deploy/prod.yaml",
       "-f", ".secret/prod.yaml", "--wait", "--dry-run"] := by
  constructor
  · rfl
  · simp [upgrade, login, update_local_chart, print_pods, runStep, seq,
      okExec, initState, helm_upgrade_cmd, helm_upgrade_base]

/-- C5: the set-subscription command passes the subscription identifier
wrapped in double quotes exactly when it contains a space character, and
unchanged otherwise. -/
theorem subscription_quoting (c : Config) :
    sub_cmd c = ["az", "account", "set", "-s",
      if ' ' ∈ c.subscription.data then "\"" ++ c.subscription ++ "\""
      else c.subscription] := by
  unfold sub_cmd
  by_cases h : ' ' ∈ c.subscription.data
  · have hc : c.subscription.contains ' ' = true := (String.contains_iff _ _).2 h
    simp [hc, h]
  · have hc : c.subscription.contains ' ' = false := by
      rw [← Bool.not_eq_true, String.contains_iff]
      exact h
    simp [hc, h]

/-- C7: in a run where every external command succeeds, the final command
issued is the pod listing scoped to the hub's namespace with `-n`. -/
theorem pod_listing_namespaced (exec : Exec) (c : Config)
    (h : ∀ cmd, (exec cmd).returncode = 0) :
    (upgrade exec (initState c)).1.executed.getLast? =
      some ["kubectl", "get", "pods", "-n", c.hub_name] := by
  simp [upgrade, login, update_local_chart, print_pods, runStep, seq,
    initState, h, print_pods_cmd]

/-- Witness for `pod_listing_namespaced`: with hub name "demo" the listing
command is `kubectl get pods -n demo`. -/
theorem pod_listing_namespaced_witness :
    (upgrade okExec (initState { defaultConfig with hub_name := "demo" })).1.executed.getLast? =
      some ["kubectl", "get", "pods", "-n", "demo"] :=
  pod_listing_namespaced okExec { defaultConfig with hub_name := "demo" }
    (fun _ => rfl)

/-- C8: the configuration record is never modified: `upgrade`, `login`,
`update_local_chart` and `print_pods` all leave every field of the
configuration unchanged, for every executor and every starting state. -/
theorem config_immutable (exec : Exec) (s : RunState) :
    (upgrade exec s).1.config = s.config ∧
    (login exec s).1.config = s.config ∧
    (update_local_chart exec s).1.config = s.config ∧
    (print_pods exec s).1.config = s.config := by
  refine ⟨?_, login_config .., update_local_chart_config .., print_pods_config ..⟩
  unfold upgrade
  rw [seq_config]
  · exact login_config ..
  · intro s1
    rw [seq_config]
    · exact update_local_chart_config ..
    · intro s2
      rw [seq_config, runStep_config]
      intro s3
      exact print_pods_config ..

/-- C10: the managed-identity flag only appends `--identity` to the
`az login` command; every other configuration-dependent command is identical
for two configurations differing only in the identity flag (the remaining
commands, `helm init --client-only` and `helm dependency update`, are
constants and cannot depend on it). -/
theorem identity_only_affects_login (c : Config) :
    login_cmd { c with identity := true } = ["az", "login", "--identity"] ∧
    login_cmd { c with identity := false } = ["az", "login"] ∧
    login_cmd { c with identity := true } =
      login_cmd { c with identity := false } ++ ["--identity"] ∧
    sub_cmd { c with identity := true } = sub_cmd { c with identity := false } ∧
    get_credentials_cmd { c with identity := true } =
      get_credentials_cmd { c with identity := false } ∧
    helm_upgrade_cmd { c with identity := true } =
      helm_upgrade_cmd { c with identity := false } ∧
    print_pods_cmd { c with identity := true } =
      print_pods_cmd { c with identity := false } := by
  refine ⟨rfl, rfl, rfl, rfl, rfl, rfl, rfl⟩

/-- C4: when every external command returns exit code zero, the run issues
exactly the seven commands — cloud login, set subscription, fetch cluster
credentials, initialize the helm client, update chart dependencies, helm
upgrade, list pods — in that order, each exactly once (the seven commands
are pairwise distinct), and raises no error. -/
theorem successful_run_order (exec : Exec) (c : Config)
    (h : ∀ cmd, (exec cmd).returncode = 0) :
    (upgrade exec (initState c)).1.executed =
      [login_cmd c, sub_cmd c, get_credentials_cmd c, helm_init_cmd,
       dependency_update_cmd, helm_upgrade_cmd c, print_pods_cmd c] ∧
    (upgrade exec (initState c)).2 = none ∧
    [login_cmd c, sub_cmd c, get_credentials_cmd c, helm_init_cmd,
     dependency_update_cmd, helm_upgrade_cmd c, print_pods_cmd c].Nodup := by
  refine ⟨?_, ?_, ?_⟩
  · simp [upgrade, login, update_local_chart, print_pods, runStep, seq,
      initState, h]
  · simp [upgrade, login, update_local_chart, print_pods, runStep, seq,
      initState, h]
  · simp [login_cmd, sub_cmd, get_credentials_cmd, helm_init_cmd,
      dependency_update_cmd, helm_upgrade_cmd, helm_upgrade_base,
      print_pods_cmd, List.nodup_cons]

/-- Witness for `successful_run_order` at the default configuration with the
all-success executor. -/
theorem successful_run_order_witness :
    (upgrade okExec (initState defaultConfig)).1.executed =
      [login_cmd defaultConfig, sub_cmd defaultConfig,
       get_credentials_cmd defaultConfig, helm_init_cmd,
       dependency_update_cmd, helm_upgrade_cmd defaultConfig,
       print_pods_cmd defaultConfig] ∧
    (upgrade okExec (initState defaultConfig)).2 = none ∧
    [login_cmd defaultConfig, sub_cmd defaultConfig,
     get_credentials_cmd defaultConfig, helm_init_cmd,
     dependency_update_cmd, helm_upgrade_cmd defaultConfig,
     print_pods_cmd defaultConfig].Nodup :=
  successful_run_order okExec defaultConfig (fun _ => rfl)

/-- C9: with `dry_run` set, nothing is skipped: a run where every command
succeeds still issues all seven commands and raises no error; the helm
upgrade command is the fixed base with `--dry-run` appended (plus `--debug`
when that flag is also set); and every other command is the same as for the
configuration with `dry_run` cleared. -/
theorem dry_run_skips_nothing (exec : Exec) (c : Config)
    (h : ∀ cmd, (exec cmd).returncode = 0) (hd : c.dry_run = true) :
    (upgrade exec (initState c)).1.executed =
      [login_cmd c, sub_cmd c, get_credentials_cmd c, helm_init_cmd,
       dependency_update_cmd, helm_upgrade_cmd c, print_pods_cmd c] ∧
    (upgrade exec (initState c)).2 = none ∧
    helm_upgrade_cmd c = helm_upgrade_base c ++
      (if c.debug then ["--dry-run", "--debug"] else ["--dry-run"]) ∧
    login_cmd { c with dry_run := false } = login_cmd c ∧
    sub_cmd { c with dry_run := false } = sub_cmd c ∧
    get_credentials_cmd { c with dry_run := false } = get_credentials_cmd c ∧
    print_pods_cmd { c with dry_run := false } = print_pods_cmd c := by
  refine ⟨?_, ?_, ?_, rfl, rfl, rfl, rfl⟩
  · simp [upgrade, login, update_local_chart, print_pods, runStep, seq,
      initState, h]
  · simp [upgrade, login, update_local_chart, print_pods, runStep, seq,
      initState, h]
  · cases hb : c.debug <;> simp [helm_upgrade_cmd, hd, hb]

/-- Witness for `dry_run_skips_nothing` at the default configuration with
`dry_run` set and the all-success executor. -/
theorem dry_run_skips_nothing_witness :
    (upgrade okExec (initState { defaultConfig with dry_run := true })).1.executed =
      [login_cmd { defaultConfig with dry_run := true },
       sub_cmd { defaultConfig with dry_run := true },
       get_credentials_cmd { defaultConfig with dry_run := true }, helm_init_cmd,
       dependency_update_cmd, helm_upgrade_cmd { defaultConfig with dry_run := true },
       print_pods_cmd { defaultConfig with dry_run := true }] ∧
    (upgrade okExec (initState { defaultConfig with dry_run := true })).2 = none ∧
    helm_upgrade_cmd { defaultConfig with dry_run := true } =
      helm_upgrade_base { defaultConfig with dry_run := true } ++
        (if ({ defaultConfig with dry_run := true } : Config).debug then
          ["--dry-run", "--debug"] else ["--dry-run"]) ∧
    login_cmd { { defaultConfig with dry_run := true } with dry_run := false } =
      login_cmd { defaultConfig with dry_run := true } ∧
    sub_cmd { { defaultConfig with dry_run := true } with dry_run := false } =
      sub_cmd { defaultConfig with dry_run := true } ∧
    get_credentials_cmd { { defaultConfig with dry_run := true } with dry_run := false } =
      get_credentials_cmd { defaultConfig with dry_run := true } ∧
    print_pods_cmd { { defaultConfig with dry_run := true } with dry_run := false } =
      print_pods_cmd { defaultConfig with dry_run := true } :=
  dry_run_skips_nothing okExec { defaultConfig with dry_run := true }
    (fun _ => rfl) rfl

/-- C6: when the login sequence succeeds but the dependency-update command
fails, the run raises that command's error text and the working directory is
left inside the chart subdirectory — `os.chdir(os.pardir)` only runs on the
success path, so no later code changes directory again for the remainder of
the run. -/
theorem cwd_not_restored_on_dep_failure (exec : Exec) (c : Config)
    (h0 : (exec (login_cmd c)).returncode = 0)
    (h1 : (exec (sub_cmd c)).returncode = 0)
    (h2 : (exec (get_credentials_cmd c)).returncode = 0)
    (h3 : (exec helm_init_cmd).returncode = 0)
    (hfail : (exec dependency_update_cmd).returncode ≠ 0) :
    (upgrade exec (initState c)).2 = some (exec dependency_update_cmd).err_msg ∧
    (upgrade exec (initState c)).1.cwd = [c.chart_name] := by
  constructor <;>
    simp [upgrade, login, update_local_chart, print_pods, runStep, seq,
      initState, h0, h1, h2, h3, hfail]

/-- Witness for `cwd_not_restored_on_dep_failure`: an executor failing only
the dependency update, at the default configuration. -/
theorem cwd_not_restored_on_dep_failure_witness :
    (upgrade failDepExec (initState defaultConfig)).2 =
      some (failDepExec dependency_update_cmd).err_msg ∧
    (upgrade failDepExec (initState defaultConfig)).1.cwd =
      [defaultConfig.chart_name] :=
  cwd_not_restored_on_dep_failure failDepExec defaultConfig
    (by decide) (by decide) (by decide) (by decide) (by decide)

/-- C1: for every step index `k` of the seven-step run, if the commands of
the steps before `k` return zero and step `k`'s command returns a non-zero
exit code, then the run raises an error carrying exactly that command's
captured error text and the commands issued are precisely the first `k + 1`
of the run — no subsequent step's command is executed; and if step `k`'s
command returns zero, no error is raised for that step: the run either goes
on to issue a further command or finishes without error. -/
theorem step_failure_aborts (exec : Exec) (c : Config) (k : Nat) (hk : k < 7)
    (hprev : ∀ i, i < k → (exec ((runCommands c).getD i [])).returncode = 0) :
    ((exec ((runCommands c).getD k [])).returncode ≠ 0 →
       (upgrade exec (initState c)).2 =
         some (exec ((runCommands c).getD k [])).err_msg ∧
       (upgrade exec (initState c)).1.executed = (runCommands c).take (k + 1)) ∧
    ((exec ((runCommands c).getD k [])).returncode = 0 →
       k + 1 < (upgrade exec (initState c)).1.executed.length ∨
       (upgrade exec (initState c)).2 = none) := by
  interval_cases k
  · constructor
    · intro hfail
      simp only [runCommands, List.getD_cons_zero] at hfail ⊢
      constructor <;>
        simp [upgrade, login, update_local_chart, print_pods, runStep, seq,
          initState, hfail]
    · intro hok
      simp only [runCommands, List.getD_cons_zero] at hok
      by_cases q1 : (exec (sub_cmd c)).returncode = 0 <;>
      by_cases q2 : (exec (get_credentials_cmd c)).returncode = 0 <;>
      by_cases q3 : (exec helm_init_cmd).returncode = 0 <;>
      by_cases q4 : (exec dependency_update_cmd).returncode = 0 <;>
      by_cases q5 : (exec (helm_upgrade_cmd c)).returncode = 0 <;>
      by_cases q6 : (exec (print_pods_cmd c)).returncode = 0 <;>
      simp [upgrade, login, update_local_chart, print_pods, runStep, seq,
        initState, hok, q1, q2, q3, q4, q5, q6]
  · have p0 := hprev 0 (by norm_num)
    simp only [runCommands, List.getD_cons_zero, List.getD_cons_succ] at p0
    constructor
    · intro hfail
      simp only [runCommands, List.getD_cons_zero, List.getD_cons_succ] at hfail ⊢
      constructor <;>
        simp [upgrade, login, update_local_chart, print_pods, runStep, seq,
          initState, p0, hfail]
    · intro hok
      simp only [runCommands, List.getD_cons_zero, List.getD_cons_succ] at hok
      by_cases q2 : (exec (get_credentials_cmd c)).returncode = 0 <;>
      by_cases q3 : (exec helm_init_cmd).returncode = 0 <;>
      by_cases q4 : (exec dependency_update_cmd).returncode = 0 <;>
      by_cases q5 : (exec (helm_upgrade_cmd c)).returncode = 0 <;>
      by_cases q6 : (exec (print_pods_cmd c)).returncode = 0 <;>
      simp [upgrade, login, update_local_chart, print_pods, runStep, seq,
        initState, p0, hok, q2, q3, q4, q5, q6]
  · have p0 := hprev 0 (by norm_num)
    have p1 := hprev 1 (by norm_num)
    simp only [runCommands, List.getD_cons_zero, List.getD_cons_succ] at p0 p1
    constructor
    · intro hfail
      simp only [runCommands, List.getD_cons_zero, List.getD_cons_succ] at hfail ⊢
      constructor <;>
        simp [upgrade, login, update_local_chart, print_pods, runStep, seq,
          initState, p0, p1, hfail]
    · intro hok
      simp only [runCommands, List.getD_cons_zero, List.getD_cons_succ] at hok
      by_cases q3 : (exec helm_init_cmd).returncode = 0 <;>
      by_cases q4 : (exec dependency_update_cmd).returncode = 0 <;>
      by_cases q5 : (exec (helm_upgrade_cmd c)).returncode = 0 <;>
      by_cases q6 : (exec (print_pods_cmd c)).returncode = 0 <;>
      simp [upgrade, login, update_local_chart, print_pods, runStep, seq,
        initState, p0, p1, hok, q3, q4, q5, q6]
  · have p0 := hprev 0 (by norm_num)
    have p1 := hprev 1 (by norm_num)
    have p2 := hprev 2 (by norm_num)
    simp only [runCommands, List.getD_cons_zero, List.getD_cons_succ] at p0 p1 p2
    constructor
    · intro hfail
      simp only [runCommands, List.getD_cons_zero, List.getD_cons_succ] at hfail ⊢
      constructor <;>
        simp [upgrade, login, update_local_chart, print_pods, runStep, seq,
          initState, p0, p1, p2, hfail]
    · intro hok
      simp only [runCommands, List.getD_cons_zero, List.getD_cons_succ] at hok
      by_cases q4 : (exec dependency_update_cmd).returncode = 0 <;>
      by_cases q5 : (exec (helm_upgrade_cmd c)).returncode = 0 <;>
      by_cases q6 : (exec (print_pods_cmd c)).returncode = 0 <;>
      simp [upgrade, login, update_local_chart, print_pods, runStep, seq,
        initState, p0, p1, p2, hok, q4, q5, q6]
  · have p0 := hprev 0 (by norm_num)
    have p1 := hprev 1 (by norm_num)
    have p2 := hprev 2 (by norm_num)
    have p3 := hprev 3 (by norm_num)
    simp only [runCommands, List.getD_cons_zero, List.getD_cons_succ] at p0 p1 p2 p3
    constructor
    · intro hfail
      simp only [runCommands, List.getD_cons_zero, List.getD_cons_succ] at hfail ⊢
      constructor <;>
        simp [upgrade, login, update_local_chart, print_pods, runStep, seq,
          initState, p0, p1, p2, p3, hfail]
    · intro hok
      simp only [runCommands, List.getD_cons_zero, List.getD_cons_succ] at hok
      by_cases q5 : (exec (helm_upgrade_cmd c)).returncode = 0 <;>
      by_cases q6 : (exec (print_pods_cmd c)).returncode = 0 <;>
      simp [upgrade, login, update_local_chart, print_pods, runStep, seq,
        initState, p0, p1, p2, p3, hok, q5, q6]
  · have p0 := hprev 0 (by norm_num)
    have p1 := hprev 1 (by norm_num)
    have p2 := hprev 2 (by norm_num)
    have p3 := hprev 3 (by norm_num)
    have p4 := hprev 4 (by norm_num)
    simp only [runCommands, List.getD_cons_zero, List.getD_cons_succ] at p0 p1 p2 p3 p4
    constructor
    · intro hfail
      simp only [runCommands, List.getD_cons_zero, List.getD_cons_succ] at hfail ⊢
      constructor <;>
        simp [upgrade, login, update_local_chart, print_pods, runStep, seq,
          initState, p0, p1, p2, p3, p4, hfail]
    · intro hok
      simp only [runCommands, List.getD_cons_zero, List.getD_cons_succ] at hok
      by_cases q6 : (exec (print_pods_cmd c)).returncode = 0 <;>
      simp [upgrade, login, update_local_chart, print_pods, runStep, seq,
        initState, p0, p1, p2, p3, p4, hok, q6]
  · have p0 := hprev 0 (by norm_num)
    have p1 := hprev 1 (by norm_num)
    have p2 := hprev 2 (by norm_num)
    have p3 := hprev 3 (by norm_num)
    have p4 := hprev 4 (by norm_num)
    have p5 := hprev 5 (by norm_num)
    simp only [runCommands, List.getD_cons_zero, List.getD_cons_succ] at p0 p1 p2 p3 p4 p5
    constructor
    · intro hfail
      simp only [runCommands, List.getD_cons_zero, List.getD_cons_succ] at hfail ⊢
      constructor <;>
        simp [upgrade, login, update_local_chart, print_pods, runStep, seq,
          initState, p0, p1, p2, p3, p4, p5, hfail]
    · intro hok
      simp only [runCommands, List.getD_cons_zero, List.getD_cons_succ] at hok
      right
      simp [upgrade, login, update_local_chart, print_pods, runStep, seq,
        initState, p0, p1, p2, p3, p4, p5, hok]

/-- Witness for `step_failure_aborts`: the executor failing exactly on the
dependency update (step index 4) aborts there with its error text, having
issued only the first five commands. -/
theorem step_failure_aborts_witness :
    (upgrade failDepExec (initState defaultConfig)).2 =
      some (failDepExec ((runCommands defaultConfig).getD 4 [])).err_msg ∧
    (upgrade failDepExec (initState defaultConfig)).1.executed =
      (runCommands defaultConfig).take 5 :=
  (step_failure_aborts failDepExec defaultConfig 4 (by norm_num)
      (fun i hi => by interval_cases i <;> decide)).1 (by decide)

end Hub23
